import Mathlib

/-!
Shallow embedding of `so_deep/models.py` (ConvEmbedding, LinearDecoder,
GoodWillHunting) and proofs about its construction-time validation,
shape behaviour, prediction and training-step contracts.

Tensors are modelled as a shape together with an index function into the
reals.  Python-level failures (assert, missing attribute, bad keyword
argument, unbound local, out-of-range embedding index, tensor-shape
mismatch) are modelled by an explicit error type, and every operation
that can fail returns `Except PyError`.  Dropout randomness is modelled
by an explicit stream of Bernoulli draws (`rng : Nat → Bool`, `true` =
keep) together with an offset into the stream, threaded through the
computation exactly where `nn.Dropout` draws from the global generator:
only in training mode.
-/

namespace SoDeep

/-- Python runtime errors that the modelled code can raise. -/
inductive PyError where
  | assertionError (msg : String)
  | attributeError (msg : String)
  | typeError (msg : String)
  | nameError (msg : String)
  | indexError (msg : String)
  | runtimeError (msg : String)
deriving DecidableEq

/-- A rank-2 tensor of token ids, shape `(d0, d1)` = (batch, sequence). -/
structure Tensor2 where
  d0 : Nat
  d1 : Nat
  data : Nat → Nat → Nat

/-- A rank-3 real tensor, shape `(d0, d1, d2)`.  Entries outside the
shape are irrelevant junk; equality of interest is always at in-range
indices or at the level of the building expressions themselves. -/
structure Tensor3 where
  d0 : Nat
  d1 : Nat
  d2 : Nat
  data : Nat → Nat → Nat → ℝ

/-- A rank-2 real tensor (a matrix view), used for `view(-1, out_dim)`. -/
structure MatR where
  rows : Nat
  cols : Nat
  data : Nat → Nat → ℝ

/-- A rank-1 integer tensor, used for `trg.view(-1)`. -/
structure VecN where
  len : Nat
  data : Nat → Nat

/-- `nn.Embedding(num, dim)`: a lookup table. -/
structure EmbeddingLayer where
  num : Nat
  dim : Nat
  weight : Nat → Nat → ℝ

/-- `nn.Linear(inF, outF)`: affine map applied to the last dimension. -/
structure LinearLayer where
  inF : Nat
  outF : Nat
  weight : Nat → Nat → ℝ
  bias : Nat → ℝ

/-- `nn.Conv1d(inC, outC, k, padding)` with stride 1 and dilation 1. -/
structure Conv1dLayer where
  inC : Nat
  outC : Nat
  k : Nat
  padding : Nat
  weight : Nat → Nat → Nat → ℝ
  bias : Nat → ℝ

/-- `torch` raises IndexError when an embedding input id is out of
range; this is the corresponding in-range check over a whole batch. -/
def tokensInRange (src : Tensor2) (num : Nat) : Bool :=
  (List.range src.d0).all fun b =>
    (List.range src.d1).all fun s => decide (src.data b s < num)

/-- Embedding lookup: `(B, S)` ids to `(B, S, dim)` vectors. -/
def embeddingLookup (emb : EmbeddingLayer) (src : Tensor2) : Tensor3 :=
  ⟨src.d0, src.d1, emb.dim, fun b s e => emb.weight (src.data b s) e⟩

/-- `nn.Dropout(p)` applied to a rank-3 tensor.  In training mode each
entry is kept (scaled by `1/(1-p)`) or zeroed according to the Bernoulli
stream, and the stream offset advances by the number of entries; in eval
mode the tensor passes through unchanged and no randomness is drawn. -/
noncomputable def dropout3 (training : Bool) (p : ℝ) (rng : Nat → Bool)
    (off : Nat) (t : Tensor3) : Tensor3 × Nat :=
  (⟨t.d0, t.d1, t.d2, fun b s e =>
      if training then
        (if rng (off + (b * t.d1 + s) * t.d2 + e) then t.data b s e / (1 - p) else 0)
      else t.data b s e⟩,
   if training then off + t.d0 * t.d1 * t.d2 else off)

/-- `nn.Linear` applied along the last dimension of a rank-3 tensor. -/
noncomputable def linear3 (l : LinearLayer) (t : Tensor3) : Tensor3 :=
  ⟨t.d0, t.d1, l.outF, fun b s o =>
    l.bias o + ∑ i ∈ Finset.range l.inF, l.weight o i * t.data b s i⟩

/-- `t.permute(0, 2, 1)`: swap the last two dimensions. -/
def permute021 (t : Tensor3) : Tensor3 :=
  ⟨t.d0, t.d2, t.d1, fun b i j => t.data b j i⟩

/-- `nn.Conv1d` on `(B, C_in, L)`: torch raises RuntimeError when the
padded input length `L + 2*padding` is smaller than the kernel;
otherwise the output length is `L + 2*padding - k + 1`, reading zero
outside the padded input. -/
noncomputable def conv1dApply (c : Conv1dLayer) (t : Tensor3) :
    Except PyError Tensor3 :=
  if c.k ≤ t.d2 + 2 * c.padding then
    .ok ⟨t.d0, c.outC, t.d2 + 2 * c.padding + 1 - c.k, fun b o l =>
      c.bias o + ∑ ci ∈ Finset.range c.inC, ∑ kk ∈ Finset.range c.k,
        c.weight o ci kk *
          (if c.padding ≤ l + kk ∧ l + kk < c.padding + t.d2 then
            t.data b ci (l + kk - c.padding) else 0)⟩
  else .error (.runtimeError "kernel size cannot be greater than actual input size")

/-- The logistic sigmoid, as used by the gated linear unit. -/
noncomputable def sigmoid (x : ℝ) : ℝ := 1 / (1 + Real.exp (-x))

/-- `F.glu(t, dim=1)`: split the channel dimension in half, gate the
first half by the sigmoid of the second. -/
noncomputable def gluDim1 (t : Tensor3) : Tensor3 :=
  ⟨t.d0, t.d1 / 2, t.d2, fun b c l =>
    t.data b c l * sigmoid (t.data b (c + t.d1 / 2) l)⟩

/-- Elementwise sum of two tensors of equal shape (the residual add). -/
noncomputable def addT (a b : Tensor3) : Tensor3 :=
  ⟨a.d0, a.d1, a.d2, fun x y z => a.data x y z + b.data x y z⟩

/-- Multiplication of a tensor by a scalar (the `self.scale` factor). -/
noncomputable def scaleT (t : Tensor3) (r : ℝ) : Tensor3 :=
  ⟨t.d0, t.d1, t.d2, fun x y z => t.data x y z * r⟩

/-- Initial values for the trainable parameters of `ConvEmbedding` and
`LinearDecoder` (torch draws them randomly at construction; here they
are an explicit argument, since no claim depends on their values). -/
structure ParamInit where
  embW : Nat → Nat → ℝ
  e2hW : Nat → Nat → ℝ
  e2hB : Nat → ℝ
  h2eW : Nat → Nat → ℝ
  h2eB : Nat → ℝ
  convW : Nat → Nat → Nat → Nat → ℝ
  convB : Nat → Nat → ℝ

/-- The state produced by `ConvEmbedding.__init__` (lines 16-40 of
`models.py`).  `dropout` is the probability stored in the `nn.Dropout`
module; `scale` is `torch.sqrt(torch.FloatTensor([0.5]))`. -/
structure ConvEmbedding where
  input_dim : Nat
  device : String
  emb_dim : Nat
  hid_dim : Nat
  kernel_size : Nat
  dropout : ℝ
  scale : ℝ
  tok_embedding : EmbeddingLayer
  emb2hid : LinearLayer
  hid2emb : LinearLayer
  convs : List Conv1dLayer

/-- `ConvEmbedding.__init__`: asserts the kernel size is odd, then
builds the embedding table, the two projections, and `n_layers`
convolutions `Conv1d(hid_dim, 2*hid_dim, kernel_size,
padding=(kernel_size - 1)//2)`. -/
noncomputable def ConvEmbedding.init (input_dim : Nat) (device : String)
    (emb_dim hid_dim n_layers kernel_size : Nat) (dropout : ℝ)
    (init : ParamInit) : Except PyError ConvEmbedding :=
  if kernel_size % 2 = 1 then
    .ok { input_dim := input_dim
          device := device
          emb_dim := emb_dim
          hid_dim := hid_dim
          kernel_size := kernel_size
          dropout := dropout
          scale := Real.sqrt (1 / 2 : ℝ)
          tok_embedding := ⟨input_dim, emb_dim, init.embW⟩
          emb2hid := ⟨emb_dim, hid_dim, init.e2hW, init.e2hB⟩
          hid2emb := ⟨hid_dim, emb_dim, init.h2eW, init.h2eB⟩
          convs := (List.range n_layers).map fun i =>
            ⟨hid_dim, 2 * hid_dim, kernel_size, (kernel_size - 1) / 2,
             init.convW i, init.convB i⟩ }
  else .error (.assertionError "Kernel size must be odd!")

/-- One iteration of the convolution loop in `ConvEmbedding.forward`:
dropout, convolution (which may raise), GLU, residual add, scaling by
`scale`. -/
noncomputable def convStep (p scale : ℝ) (training : Bool) (rng : Nat → Bool)
    (st : Tensor3 × Nat) (conv : Conv1dLayer) :
    Except PyError (Tensor3 × Nat) :=
  match conv1dApply conv (dropout3 training p rng st.2 st.1).1 with
  | .error e => .error e
  | .ok conved =>
    .ok (scaleT (addT (gluDim1 conved) st.1) scale,
      (dropout3 training p rng st.2 st.1).2)

/-- The convolution loop of `ConvEmbedding.forward`, stopping at the
first layer that raises. -/
noncomputable def convLoop (p scale : ℝ) (training : Bool) (rng : Nat → Bool) :
    Tensor3 × Nat → List Conv1dLayer → Except PyError (Tensor3 × Nat)
  | st, [] => .ok st
  | st, c :: rest =>
    match convStep p scale training rng st c with
    | .error e => .error e
    | .ok st2 => convLoop p scale training rng st2 rest

/-- `ConvEmbedding.forward` (lines 42-91): embedding lookup (IndexError
on an out-of-range id), dropout, projection to hidden width, permute to
channel-first, the convolution loop, and projection back to embedding
width.  After the loop the local `conved` equals the final `conv_input`
(the last statement of each iteration is `conv_input = conved`), so with
zero layers `conved` was never bound and line 87 raises NameError. -/
noncomputable def ConvEmbedding.forward (e : ConvEmbedding) (training : Bool)
    (rng : Nat → Bool) (off : Nat) (src : Tensor2) :
    Except PyError (Tensor3 × Nat) :=
  if tokensInRange src e.input_dim then
    let emb := dropout3 training e.dropout rng off (embeddingLookup e.tok_embedding src)
    let conv_input := permute021 (linear3 e.emb2hid emb.1)
    match convLoop e.dropout e.scale training rng (conv_input, emb.2) e.convs with
    | .error err => .error err
    | .ok res =>
      match e.convs with
      | [] => .error (.nameError "name conved is not defined")
      | _ :: _ => .ok (linear3 e.hid2emb (permute021 res.1), res.2)
  else .error (.indexError "index out of range in self")

/-- The state produced by `LinearDecoder.__init__` (lines 100-109).
`device` is the Python attribute of that name: `__init__` never assigns
it (and `nn.Module` does not define it), so on a freshly constructed
decoder it is absent, modelled as `none`; a caller can still inject one
by attribute assignment, modelled as `some`. -/
structure LinearDecoder where
  out_dim : Nat
  highway : Option (Tensor3 → Tensor3)
  decoder : LinearLayer
  relu : Bool
  device : Option String

/-- `LinearDecoder.__init__(enc_dim, out_dim, highway_layers,
highway_act)`: stores `out_dim`, sets `highway = None` unconditionally
(the two highway arguments are ignored), builds `nn.Linear(enc_dim,
out_dim)` and sets `relu = True`.  No `device` attribute is assigned. -/
noncomputable def LinearDecoder.init (enc_dim out_dim : Nat)
    (highway_layers : Nat) (highway_act : String)
    (w : Nat → Nat → ℝ) (b : Nat → ℝ) : LinearDecoder :=
  { out_dim := out_dim
    highway := none
    decoder := ⟨enc_dim, out_dim, w, b⟩
    relu := true
    device := none }

/-- `LinearDecoder.forward` (lines 111-122): apply the highway module if
one is present, then the single linear projection.  No activation or
softmax is applied to the scores. -/
noncomputable def LinearDecoder.forward (d : LinearDecoder) (enc_outs : Tensor3) :
    Tensor3 :=
  match d.highway with
  | some hw => linear3 d.decoder (hw enc_outs)
  | none => linear3 d.decoder enc_outs

/-- The state produced by a successful `GoodWillHunting.__init__`:
the two sub-modules, the declared device, the `nll_weight` buffer and
the register of persistent-buffer names kept by `register_buffer`
(buffers are saved in the state dict alongside the parameters). -/
structure GoodWillHunting where
  encoder : ConvEmbedding
  decoder : LinearDecoder
  device : String
  nll_weight : List ℝ
  buffers : List String

/-- `GoodWillHunting.__init__` (lines 128-146): stores the sub-modules,
then evaluates `assert self.encoder.device == self.device and
self.decoder.device == self.device` with Python short-circuiting: if
the encoder device differs the assert fails; otherwise the read of
`self.decoder.device` raises AttributeError whenever the decoder has no
`device` attribute; otherwise the decoder device is compared.  On
success, `register_buffer` stores `torch.ones(categorizer.out_dim)` as
the persistent buffer `nll_weight`. -/
noncomputable def GoodWillHunting.init (encoder : ConvEmbedding)
    (categorizer : LinearDecoder) (device : String) :
    Except PyError GoodWillHunting :=
  if encoder.device = device then
    match categorizer.device with
    | none => .error (.attributeError "LinearDecoder object has no attribute device")
    | some d =>
      if d = device then
        .ok { encoder := encoder
              decoder := categorizer
              device := device
              nll_weight := List.replicate categorizer.out_dim 1
              buffers := ["nll_weight"] }
      else .error (.assertionError "All devices should be the same !")
  else .error (.assertionError "All devices should be the same !")

/-- `GoodWillHunting.forward` (lines 148-158): encoder then decoder. -/
noncomputable def GoodWillHunting.forward (m : GoodWillHunting)
    (training : Bool) (rng : Nat → Bool) (off : Nat) (src : Tensor2) :
    Except PyError (Tensor3 × Nat) :=
  match m.encoder.forward training rng off src with
  | .error e => .error e
  | .ok (t, o) => .ok (m.decoder.forward t, o)

/-- The parameter list of `GoodWillHunting.forward` after `self` (from
its `def` line); CPython binds keyword arguments against it and raises
TypeError for a keyword that matches no parameter. -/
def forwardParamNames : List String := ["src"]

/-- `torch.argmax(t, 2)`: index of the largest entry along the last
dimension (ties to the earlier index, scanning left to right). -/
noncomputable def argmaxDim2 (t : Tensor3) : Tensor2 :=
  ⟨t.d0, t.d1, fun b s =>
    (List.range t.d2).foldl
      (fun best c => if t.data b s best < t.data b s c then c else best) 0⟩

/-- `GoodWillHunting.predict` (lines 160-176).  Its first statement is
`out = self(src, out=None)`, but `forward` accepts only `src`, so the
call raises TypeError before anything else runs; were the keyword
accepted, `logits.tolist()` would be a list of per-batch rows (lists of
ints) and `classnames.get(item, "WTF ?")` would raise TypeError on the
unhashable list key. -/
noncomputable def GoodWillHunting.predict (m : GoodWillHunting)
    (training : Bool) (rng : Nat → Bool) (off : Nat) (src : Tensor2)
    (classnames : List (Nat × String)) : Except PyError (List String) :=
  if "out" ∈ forwardParamNames then
    .error (.typeError "unhashable type list")
  else .error (.typeError "forward got an unexpected keyword argument out")

/-- `output.view(-1, cols)`: reshape a rank-3 tensor to `(numel / cols,
cols)`; torch raises when `cols` is zero or does not divide the element
count. -/
noncomputable def view2 (t : Tensor3) (cols : Nat) : Except PyError MatR :=
  if cols ≠ 0 ∧ (t.d0 * t.d1 * t.d2) % cols = 0 then
    .ok ⟨t.d0 * t.d1 * t.d2 / cols, cols, fun r c =>
      t.data ((r * cols + c) / (t.d1 * t.d2))
        (((r * cols + c) / t.d2) % t.d1) ((r * cols + c) % t.d2)⟩
  else .error (.runtimeError "shape is invalid for input size")

/-- `trg.view(-1)`: flatten a rank-2 integer tensor. -/
def view1 (t : Tensor2) : VecN :=
  ⟨t.d0 * t.d1, fun n => t.data (n / t.d1) (n % t.d1)⟩

/-- Modelled from the spec: the external criterion collaborator (not in
`src/`) converts predictions and targets into a scalar training signal;
it yields a finite non-negative loss when the flattened prediction rows
match the target length, and surfaces a shape error from the tensor
engine otherwise. -/
def CriterionContract (crit : MatR → VecN → Except PyError ℝ) : Prop :=
  ∀ p t, (p.rows = t.len → ∃ r, crit p t = .ok r ∧ 0 ≤ r) ∧
    (p.rows ≠ t.len → ∃ e, crit p t = .error e)

/-- Modelled from the spec: one concrete criterion satisfying the
contract (a non-negative mean-of-squares surrogate with the shape check
of a torch loss). -/
noncomputable def specCriterion (p : MatR) (t : VecN) : Except PyError ℝ :=
  if p.rows = t.len then
    .ok ((∑ i ∈ Finset.range p.rows, (p.data i (t.data i)) ^ 2) / (p.rows + 1))
  else .error (.runtimeError "expected input batch size to match target batch size")

/-- `GoodWillHunting.train_epoch` (lines 178-204): run `self(src)`,
call `scorer.register_batch(torch.argmax(output, 2), trg, src)` (the
scorer is an external collaborator; its result of type `σ` records the
call), then return `criterion(output.view(-1, self.decoder.out_dim),
trg.view(-1))`.  No optimizer step is taken and no model state is
written. -/
noncomputable def GoodWillHunting.train_epoch {σ : Type} (m : GoodWillHunting)
    (training : Bool) (rng : Nat → Bool) (off : Nat) (src trg : Tensor2)
    (scorer : Tensor2 → Tensor2 → Tensor2 → σ)
    (criterion : MatR → VecN → Except PyError ℝ) :
    Except PyError (σ × ℝ) :=
  match m.forward training rng off src with
  | .error e => .error e
  | .ok (output, _) =>
    let registered := scorer (argmaxDim2 output) trg src
    match view2 output m.decoder.out_dim with
    | .error e => .error e
    | .ok pred =>
      match criterion pred (view1 trg) with
      | .error e => .error e
      | .ok loss => .ok (registered, loss)

/-- The shape facts `ConvEmbedding.__init__` establishes: odd kernel,
projection widths, and for every convolution the channel counts, kernel
size and padding of lines 34-38. -/
def ConvEmbedding.wellFormed (e : ConvEmbedding) : Prop :=
  e.kernel_size % 2 = 1 ∧
  e.emb2hid.outF = e.hid_dim ∧
  e.hid2emb.outF = e.emb_dim ∧
  ∀ c ∈ e.convs, c.inC = e.hid_dim ∧ c.outC = 2 * e.hid_dim ∧
    c.k = e.kernel_size ∧ c.padding = (e.kernel_size - 1) / 2

/-- `true` exactly on `Except.ok` values. -/
def exceptOk {ε α : Type} : Except ε α → Bool
  | .ok _ => true
  | .error _ => false

/-- The convolution loop with dropout inactive (eval mode): the
randomness-free computation that remains. -/
noncomputable def convLoopEval (scale : ℝ) :
    Tensor3 → List Conv1dLayer → Except PyError Tensor3
  | t, [] => .ok t
  | t, c :: rest =>
    match conv1dApply c t with
    | .error e => .error e
    | .ok conved => convLoopEval scale (scaleT (addT (gluDim1 conved) t) scale) rest

/-- Concrete parameter initialization used by the concrete models below:
identity-like embedding and projections, zero convolution weights, and a
convolution bias of 1 on the first output channel and 0 elsewhere. -/
noncomputable def init6 : ParamInit :=
  { embW := fun _ _ => 1
    e2hW := fun _ _ => 1
    e2hB := fun _ => 0
    h2eW := fun _ _ => 1
    h2eB := fun _ => 0
    convW := fun _ _ _ _ => 0
    convB := fun _ o => if o = 0 then 1 else 0 }

/-- The encoder `ConvEmbedding(input_dim=1, device="cpu", emb_dim=1,
hid_dim=1, n_layers=1, kernel_size=1, dropout=0.5)` built from `init6`:
the value `ConvEmbedding.init 1 "cpu" 1 1 1 1 (1/2) init6` returns. -/
noncomputable def enc6 : ConvEmbedding :=
  { input_dim := 1
    device := "cpu"
    emb_dim := 1
    hid_dim := 1
    kernel_size := 1
    dropout := 1 / 2
    scale := Real.sqrt (1 / 2 : ℝ)
    tok_embedding := ⟨1, 1, init6.embW⟩
    emb2hid := ⟨1, 1, init6.e2hW, init6.e2hB⟩
    hid2emb := ⟨1, 1, init6.h2eW, init6.h2eB⟩
    convs := [⟨1, 2, 1, 0, init6.convW 0, init6.convB 0⟩] }

/-- A decoder `LinearDecoder(1, 1)` whose missing `device` attribute has
been injected afterwards by attribute assignment (`dec.device = "cpu"`),
the only way a `GoodWillHunting` construction can get past the assert. -/
noncomputable def dec6 : LinearDecoder :=
  { LinearDecoder.init 1 1 0 "relu" (fun _ _ => 1) (fun _ => 0) with
    device := some "cpu" }

/-- The composite model `GoodWillHunting(enc6, dec6, "cpu")`: the value
`GoodWillHunting.init enc6 dec6 "cpu"` returns. -/
noncomputable def gwh6 : GoodWillHunting :=
  { encoder := enc6
    decoder := dec6
    device := "cpu"
    nll_weight := List.replicate 1 1
    buffers := ["nll_weight"] }

/-- A Bernoulli stream whose first draw keeps and whose later draws
drop: distinguishes two consecutive training-mode forward calls. -/
def rng6 : Nat → Bool := fun n => n == 0

/-- A one-element batch holding the single token id 0. -/
def src6 : Tensor2 := ⟨1, 1, fun _ _ => 0⟩

/-- The scalar output of `gwh6.forward` in training mode at a given
offset into the Bernoulli stream (0 when the call errors). -/
noncomputable def c6val (off : Nat) : ℝ :=
  match gwh6.forward true rng6 off src6 with
  | .ok (t, _) => t.data 0 0 0
  | .error _ => 0

/-- The stream offset `gwh6.forward` returns (0 when the call errors):
the state a second call would start from. -/
noncomputable def c6off (off : Nat) : Nat :=
  match gwh6.forward true rng6 off src6 with
  | .ok (_, o) => o
  | .error _ => 0

/-- `ConvEmbedding(input_dim=10, device="cpu", emb_dim=2, hid_dim=2,
n_layers=0, kernel_size=3, dropout=0.5)`: an odd kernel size and zero
convolution layers, accepted by the constructor. -/
noncomputable def enc4 : Except PyError ConvEmbedding :=
  ConvEmbedding.init 10 "cpu" 2 2 0 3 (1 / 2) init6

/-- A one-element batch of the token id 0, valid for `enc4`. -/
def src4 : Tensor2 := ⟨1, 1, fun _ _ => 0⟩

/-- `ConvEmbedding(input_dim=10, device="cpu", emb_dim=2, hid_dim=2,
n_layers=1, kernel_size=3, dropout=0.5)`: a validly constructed encoder
with one convolution layer. -/
noncomputable def enc4b : Except PyError ConvEmbedding :=
  ConvEmbedding.init 10 "cpu" 2 2 1 3 (1 / 2) init6

/-- A batch of one empty token sequence, shape `(1, 0)`: every id is
vacuously in range. -/
def src0 : Tensor2 := ⟨1, 0, fun _ _ => 0⟩

/-- A fresh `LinearDecoder(128, 5)` exactly as `__init__` leaves it (in
particular with no `device` attribute). -/
noncomputable def dec1 : LinearDecoder :=
  LinearDecoder.init 128 5 0 "relu" (fun _ _ => 0) (fun _ => 0)

/-- A successful `ConvEmbedding.__init__` establishes `wellFormed`. -/
lemma ConvEmbedding.init_wellFormed (input_dim : Nat) (device : String)
    (emb_dim hid_dim n_layers kernel_size : Nat) (dropout : ℝ)
    (pinit : ParamInit) (e : ConvEmbedding)
    (h : ConvEmbedding.init input_dim device emb_dim hid_dim n_layers
      kernel_size dropout pinit = .ok e) : e.wellFormed := by
  unfold ConvEmbedding.init at h
  split at h
  · rename_i hk
    injection h with h
    subst h
    refine ⟨hk, rfl, rfl, ?_⟩
    intro c hc
    simp only [List.mem_map] at hc
    obtain ⟨i, _, rfl⟩ := hc
    exact ⟨rfl, rfl, rfl, rfl⟩
  · exact absurd h (by simp)

/-- A successful `ConvEmbedding.__init__` with `n_layers` layers builds
exactly `n_layers` convolutions. -/
lemma ConvEmbedding.init_convs_length (input_dim : Nat) (device : String)
    (emb_dim hid_dim n_layers kernel_size : Nat) (dropout : ℝ)
    (pinit : ParamInit) (e : ConvEmbedding)
    (h : ConvEmbedding.init input_dim device emb_dim hid_dim n_layers
      kernel_size dropout pinit = .ok e) : e.convs.length = n_layers := by
  unfold ConvEmbedding.init at h
  split at h
  · injection h with h
    subst h
    simp
  · exact absurd h (by simp)

/-- A successful `ConvEmbedding.__init__` records the embedding width. -/
lemma ConvEmbedding.init_emb_dim (input_dim : Nat) (device : String)
    (emb_dim hid_dim n_layers kernel_size : Nat) (dropout : ℝ)
    (pinit : ParamInit) (e : ConvEmbedding)
    (h : ConvEmbedding.init input_dim device emb_dim hid_dim n_layers
      kernel_size dropout pinit = .ok e) : e.emb_dim = emb_dim := by
  unfold ConvEmbedding.init at h
  split at h
  · injection h with h; subst h; rfl
  · exact absurd h (by simp)

/-- One convolution-loop iteration succeeds on a nonempty sequence
(with the constructor's padding, a shorter one fails the kernel-size
check) and preserves the `(batch, hid_dim, seq)` shape of the running
`conv_input`, when the layer has the channel counts, kernel and padding
the constructor gave it. -/
lemma convStep_ok_shape (p scale : ℝ) (training : Bool) (rng : Nat → Bool)
    (H K B S : Nat) (hk : K % 2 = 1) (hS : 0 < S) (st : Tensor3 × Nat)
    (c : Conv1dLayer)
    (hc : c.inC = H ∧ c.outC = 2 * H ∧ c.k = K ∧ c.padding = (K - 1) / 2)
    (hst : st.1.d0 = B ∧ st.1.d1 = H ∧ st.1.d2 = S) :
    ∃ st2, convStep p scale training rng st c = .ok st2 ∧
      st2.1.d0 = B ∧ st2.1.d1 = H ∧ st2.1.d2 = S := by
  obtain ⟨hin, hout, hkk, hpad⟩ := hc
  obtain ⟨h0, h1, h2⟩ := hst
  have hcond : c.k ≤ (dropout3 training p rng st.2 st.1).1.d2 + 2 * c.padding := by
    show c.k ≤ st.1.d2 + 2 * c.padding
    omega
  unfold convStep conv1dApply
  rw [if_pos hcond]
  refine ⟨_, rfl, h0, ?_, ?_⟩
  · show c.outC / 2 = H
    omega
  · show st.1.d2 + 2 * c.padding + 1 - c.k = S
    omega

/-- The whole convolution loop succeeds on a nonempty sequence and
preserves the `(batch, hid_dim, seq)` shape, for any list of
constructor-shaped layers. -/
lemma convLoop_ok_shape (p scale : ℝ) (training : Bool) (rng : Nat → Bool)
    (H K B S : Nat) (hk : K % 2 = 1) (hS : 0 < S) (l : List Conv1dLayer)
    (hl : ∀ c ∈ l, c.inC = H ∧ c.outC = 2 * H ∧ c.k = K ∧
      c.padding = (K - 1) / 2)
    (st : Tensor3 × Nat) (hst : st.1.d0 = B ∧ st.1.d1 = H ∧ st.1.d2 = S) :
    ∃ res, convLoop p scale training rng st l = .ok res ∧
      res.1.d0 = B ∧ res.1.d1 = H ∧ res.1.d2 = S := by
  induction l generalizing st with
  | nil => exact ⟨st, rfl, hst.1, hst.2.1, hst.2.2⟩
  | cons x xs ih =>
    obtain ⟨st2, hstep, h0, h1, h2⟩ := convStep_ok_shape p scale training
      rng H K B S hk hS st x (hl x (List.mem_cons_self x xs)) hst
    obtain ⟨res, hres, hr0, hr1, hr2⟩ :=
      ih (fun c hc => hl c (List.mem_cons_of_mem x hc)) st2 ⟨h0, h1, h2⟩
    refine ⟨res, ?_, hr0, hr1, hr2⟩
    simp only [convLoop, hstep]
    exact hres

/-- Shape of `ConvEmbedding.forward` on a well-formed encoder with at
least one convolution layer, a nonempty sequence and in-range token
ids: it succeeds and returns a `(batch, seq, emb_dim)` tensor. -/
lemma ConvEmbedding.forward_shape (e : ConvEmbedding) (he : e.wellFormed)
    (hne : e.convs ≠ []) (training : Bool) (rng : Nat → Bool) (off : Nat)
    (src : Tensor2) (hsrc : tokensInRange src e.input_dim = true)
    (hpos : 0 < src.d1) :
    ∃ t o, e.forward training rng off src = .ok (t, o) ∧
      t.d0 = src.d0 ∧ t.d1 = src.d1 ∧ t.d2 = e.emb_dim := by
  obtain ⟨hk, hproj, hback, hconvs⟩ := he
  obtain ⟨res, hres, hr0, hr1, hr2⟩ := convLoop_ok_shape e.dropout e.scale
    training rng e.hid_dim e.kernel_size src.d0 src.d1 hk hpos e.convs
    hconvs
    (permute021 (linear3 e.emb2hid (dropout3 training e.dropout rng off
      (embeddingLookup e.tok_embedding src)).1),
     (dropout3 training e.dropout rng off
       (embeddingLookup e.tok_embedding src)).2)
    ⟨rfl, hproj, rfl⟩
  cases hc : e.convs with
  | nil => exact absurd hc hne
  | cons x xs =>
    rw [hc] at hres
    unfold ConvEmbedding.forward
    rw [if_pos hsrc, hc]
    simp only [hres]
    exact ⟨_, _, rfl, hr0, hr2, hback⟩

/-- C3: constructing `ConvEmbedding` with an even kernel size fails
fast with the validation error of the `assert`, for every choice of the
other configuration parameters; no encoder value is produced. -/
theorem convembedding_even_kernel_always_fails (input_dim : Nat)
    (device : String) (emb_dim hid_dim n_layers kernel_size : Nat)
    (dropout : ℝ) (pinit : ParamInit) (hk : kernel_size % 2 = 0) :
    ConvEmbedding.init input_dim device emb_dim hid_dim n_layers
      kernel_size dropout pinit =
      .error (.assertionError "Kernel size must be odd!") := by
  unfold ConvEmbedding.init
  rw [if_neg]
  omega

/-- Witness for C3 at kernel size 2. -/
theorem convembedding_even_kernel_always_fails_witness :
    ConvEmbedding.init 15000 "cpu" 128 128 6 2 (1 / 2) init6 =
      .error (.assertionError "Kernel size must be odd!") :=
  convembedding_even_kernel_always_fails 15000 "cpu" 128 128 6 2 (1 / 2)
    init6 (by decide)

/-- C10: `ConvEmbedding.__init__` accepts `n_layers = 0` without error
(only the kernel size is validated), but every `forward` call on such
an encoder fails: with in-range ids the loop runs zero times and the
read of the never-bound `conved` raises NameError, and otherwise the
embedding lookup raises IndexError first; so `forward` is total only
with at least one layer. -/
theorem convembedding_zero_layers_accepted_but_forward_fails
    (input_dim : Nat) (device : String) (emb_dim hid_dim kernel_size : Nat)
    (dropout : ℝ) (pinit : ParamInit) (hk : kernel_size % 2 = 1) :
    ∃ e, ConvEmbedding.init input_dim device emb_dim hid_dim 0
        kernel_size dropout pinit = .ok e ∧
      ∀ training rng off src, ∃ err,
        e.forward training rng off src = .error err := by
  unfold ConvEmbedding.init
  rw [if_pos hk]
  refine ⟨_, rfl, ?_⟩
  intro training rng off src
  unfold ConvEmbedding.forward
  by_cases h : tokensInRange src input_dim = true
  · exact ⟨_, by rw [if_pos h]; rfl⟩
  · exact ⟨_, by rw [if_neg h]⟩

/-- Witness for C10 at a concrete configuration with kernel size 3. -/
theorem convembedding_zero_layers_accepted_but_forward_fails_witness :
    ∃ e, ConvEmbedding.init 10 "cpu" 2 2 0 3 (1 / 2) init6 = .ok e ∧
      ∀ training rng off src, ∃ err,
        e.forward training rng off src = .error err :=
  convembedding_zero_layers_accepted_but_forward_fails 10 "cpu" 2 2 3
    (1 / 2) init6 (by decide)

/-- C4, counterexample to the claim as stated, at two concrete inputs:
`ConvEmbedding(10, "cpu", 2, 2, n_layers=0, kernel_size=3, 0.5)` is
validly constructed (odd kernel size), yet `forward` on a `(1, 1)`
token tensor returns no tensor at all - it raises the NameError for the
unbound `conved`; and the equally valid one-layer encoder raises the
convolution's RuntimeError on a `(1, 0)` token tensor, whose padded
length 2 is smaller than the kernel size 3. -/
theorem convembedding_valid_but_forward_returns_no_tensor :
    exceptOk enc4 = true ∧
    enc4.bind (fun e => e.forward false rng6 0 src4) =
      .error (.nameError "name conved is not defined") ∧
    exceptOk enc4b = true ∧
    enc4b.bind (fun e => e.forward false rng6 0 src0) =
      .error (.runtimeError "kernel size cannot be greater than actual input size") := by
  refine ⟨rfl, rfl, rfl, rfl⟩

/-- C4, amended with `n_layers ≥ 1` and a nonempty sequence: for every
`ConvEmbedding` the constructor accepts that has at least one
convolution layer, and every in-range token tensor with at least one
position (an empty sequence fails the convolution's kernel-size check
instead), `forward` succeeds and its output keeps the batch size and
the sequence length of the input (one `emb_dim`-wide vector per token
position per batch element). -/
theorem convembedding_forward_preserves_seq_length (input_dim : Nat)
    (device : String) (emb_dim hid_dim n_layers kernel_size : Nat)
    (dropout : ℝ) (pinit : ParamInit) (e : ConvEmbedding)
    (h : ConvEmbedding.init input_dim device emb_dim hid_dim n_layers
      kernel_size dropout pinit = .ok e)
    (hn : 0 < n_layers) (training : Bool) (rng : Nat → Bool) (off : Nat)
    (src : Tensor2) (hsrc : tokensInRange src e.input_dim = true)
    (hpos : 0 < src.d1) :
    ∃ t o, e.forward training rng off src = .ok (t, o) ∧
      t.d0 = src.d0 ∧ t.d1 = src.d1 ∧ t.d2 = emb_dim := by
  have hne : e.convs ≠ [] := by
    have := ConvEmbedding.init_convs_length input_dim device emb_dim
      hid_dim n_layers kernel_size dropout pinit e h
    intro hnil
    rw [hnil] at this
    simp at this
    omega
  have hwf := ConvEmbedding.init_wellFormed input_dim device emb_dim
    hid_dim n_layers kernel_size dropout pinit e h
  have hemb := ConvEmbedding.init_emb_dim input_dim device emb_dim
    hid_dim n_layers kernel_size dropout pinit e h
  obtain ⟨t, o, hf, h0, h1, h2⟩ :=
    ConvEmbedding.forward_shape e hwf hne training rng off src hsrc hpos
  exact ⟨t, o, hf, h0, h1, hemb ▸ h2⟩

/-- Witness for C4 (amended) at `enc6` on a `(1, 1)` input. -/
theorem convembedding_forward_preserves_seq_length_witness :
    ∃ t o, enc6.forward true rng6 0 src6 = .ok (t, o) ∧
      t.d0 = src6.d0 ∧ t.d1 = src6.d1 ∧ t.d2 = 1 :=
  convembedding_forward_preserves_seq_length 1 "cpu" 1 1 1 1 (1 / 2)
    init6 enc6 rfl (by decide) true rng6 0 src6 (by decide) (by decide)

/-- C7: a `LinearDecoder` configured with class count `out_dim` maps
any `(d0, d1, enc_dim)` tensor to one with last dimension `out_dim`,
keeping the batch and sequence dimensions; the forward path applies the
single linear projection and nothing else (no activation or softmax),
since the constructor leaves `highway = None`. -/
theorem lineardecoder_forward_last_dim_is_out_dim (enc_dim out_dim : Nat)
    (highway_layers : Nat) (highway_act : String) (w : Nat → Nat → ℝ)
    (b : Nat → ℝ) (t : Tensor3) :
    ((LinearDecoder.init enc_dim out_dim highway_layers highway_act w b).forward
        t).d2 = out_dim ∧
    ((LinearDecoder.init enc_dim out_dim highway_layers highway_act w b).forward
        t).d0 = t.d0 ∧
    ((LinearDecoder.init enc_dim out_dim highway_layers highway_act w b).forward
        t).d1 = t.d1 := by
  refine ⟨?_, ?_, ?_⟩ <;> rfl

/-- C9: for every value of `highway_layers` and `highway_act` (not just
the defaults), the constructed `LinearDecoder` has `highway = None` and
`forward` is exactly the single linear map `decoder`; the highway
branch is never taken. -/
theorem lineardecoder_highway_branch_never_taken (enc_dim out_dim : Nat)
    (highway_layers : Nat) (highway_act : String) (w : Nat → Nat → ℝ)
    (b : Nat → ℝ) :
    (LinearDecoder.init enc_dim out_dim highway_layers highway_act w b).highway
      = none ∧
    ∀ t, (LinearDecoder.init enc_dim out_dim highway_layers highway_act w
        b).forward t =
      linear3 (LinearDecoder.init enc_dim out_dim highway_layers highway_act
        w b).decoder t :=
  ⟨rfl, fun _ => rfl⟩

/-- C8: every successfully constructed `GoodWillHunting` holds an
`nll_weight` vector equal to `torch.ones(out_dim)` of the decoder's
class count - all entries 1 and length `out_dim` - registered under the
persistent-buffer name `nll_weight`; and since every operation of the
embedded model (`forward`, `predict`, `train_epoch`) is a function of
the model that returns only outputs, no operation changes it. -/
theorem gwh_nll_weight_is_ones (enc : ConvEmbedding) (dec : LinearDecoder)
    (dev : String) (m : GoodWillHunting)
    (h : GoodWillHunting.init enc dec dev = .ok m) :
    m.nll_weight = List.replicate dec.out_dim 1 ∧
    m.nll_weight.length = dec.out_dim ∧
    (∀ x ∈ m.nll_weight, x = 1) ∧
    "nll_weight" ∈ m.buffers := by
  unfold GoodWillHunting.init at h
  split at h
  · split at h
    · exact absurd h (by simp)
    · split at h
      · injection h with h
        subst h
        refine ⟨rfl, by simp, ?_, by simp⟩
        intro x hx
        exact List.eq_of_mem_replicate hx
      · exact absurd h (by simp)
  · exact absurd h (by simp)

/-- Witness for C8: `GoodWillHunting(enc6, dec6, "cpu")` constructs
(its decoder's `device` was injected) and carries the ones buffer. -/
theorem gwh_nll_weight_is_ones_witness :
    gwh6.nll_weight = List.replicate dec6.out_dim 1 ∧
    gwh6.nll_weight.length = dec6.out_dim ∧
    (∀ x ∈ gwh6.nll_weight, x = 1) ∧
    "nll_weight" ∈ gwh6.buffers :=
  gwh_nll_weight_is_ones enc6 dec6 "cpu" gwh6 rfl

/-- C1: with encoder device, decoder device and declared device all
meant to be `"cpu"`, construction still does not succeed: the decoder
produced by `LinearDecoder.__init__` has no `device` attribute, so the
assert's read of `self.decoder.device` raises AttributeError and no
model is produced.  (When the encoder device disagrees the assert does
fail as claimed, but the success half of the claim is unreachable for
any freshly constructed `LinearDecoder`.) -/
theorem gwh_init_attribute_error_despite_matching_devices :
    enc6.device = "cpu" ∧ dec1.device = none ∧
    GoodWillHunting.init enc6 dec1 "cpu" =
      .error (.attributeError "LinearDecoder object has no attribute device") :=
  ⟨rfl, rfl, rfl⟩

/-- C2: `predict` never returns a label list: its first statement calls
`self(src, out=None)`, and since `forward` takes only `src`, CPython
keyword binding raises TypeError on every call, here evaluated on a
constructed model, a `(1, 1)` batch and a classname mapping for every
class id. -/
theorem gwh_predict_always_raises_type_error :
    "out" ∉ forwardParamNames ∧
    gwh6.predict true rng6 0 src6 [(0, "author")] =
      .error (.typeError "forward got an unexpected keyword argument out") := by
  constructor
  · decide
  · rfl

/-- The spec-modelled criterion satisfies the criterion contract. -/
lemma specCriterion_contract : CriterionContract specCriterion := by
  intro p t
  constructor
  · intro h
    refine ⟨(∑ i ∈ Finset.range p.rows, (p.data i (t.data i)) ^ 2) /
      (p.rows + 1), ?_, ?_⟩
    · unfold specCriterion
      rw [if_pos h]
    · positivity
  · intro h
    refine ⟨.runtimeError "expected input batch size to match target batch size", ?_⟩
    unfold specCriterion
    rw [if_neg h]

/-- `GoodWillHunting.forward` on a well-formed model and a nonempty
sequence: it succeeds and returns a `(batch, seq, out_width)` score
tensor. -/
lemma GoodWillHunting.forward_out_shape (m : GoodWillHunting)
    (he : m.encoder.wellFormed) (hne : m.encoder.convs ≠ [])
    (hhw : m.decoder.highway = none) (training : Bool) (rng : Nat → Bool)
    (off : Nat) (src : Tensor2)
    (hsrc : tokensInRange src m.encoder.input_dim = true)
    (hpos : 0 < src.d1) :
    ∃ t o, m.forward training rng off src = .ok (t, o) ∧
      t.d0 = src.d0 ∧ t.d1 = src.d1 ∧ t.d2 = m.decoder.decoder.outF := by
  obtain ⟨te, o, hf, h0, h1, _⟩ :=
    ConvEmbedding.forward_shape m.encoder he hne training rng off src hsrc
      hpos
  refine ⟨m.decoder.forward te, o, ?_, ?_, ?_, ?_⟩
  · unfold GoodWillHunting.forward
    rw [hf]
  · unfold LinearDecoder.forward
    rw [hhw]
    exact h0
  · unfold LinearDecoder.forward
    rw [hhw]
    exact h1
  · unfold LinearDecoder.forward
    rw [hhw]
    rfl

/-- When the column count is nonzero and divides the element count,
`view(-1, cols)` succeeds. -/
lemma view2_ok_of_cond (t : Tensor3) (cols : Nat)
    (hcond : cols ≠ 0 ∧ (t.d0 * t.d1 * t.d2) % cols = 0) :
    ∃ pred, view2 t cols = .ok pred := by
  unfold view2
  rw [if_pos hcond]
  exact ⟨_, rfl⟩

/-- A successful `view(-1, cols)` has `numel / cols` rows. -/
lemma view2_ok_rows (t : Tensor3) (cols : Nat) (pred : MatR)
    (h : view2 t cols = .ok pred) :
    pred.rows = t.d0 * t.d1 * t.d2 / cols := by
  unfold view2 at h
  split at h
  · injection h with h
    rw [← h]
  · cases h

/-- C5: on a well-formed model, for a batch with in-range token ids and
at least one position (so that the forward pass produces an output at
all - on an empty sequence the convolution itself raises, before any
output exists), `train_epoch` first registers `argmax(output, 2)`, the
targets and the raw input with the scorer, then hands the flattened
views to the criterion: when the target element count matches the
prediction row count it returns the criterion's non-negative scalar
loss next to the scorer registration and performs no optimizer step
(the model is returned nowhere and no parameter is written); when the
counts are incompatible the criterion's shape error propagates.  Holds
for every criterion satisfying the spec's criterion contract. -/
theorem gwh_train_epoch_registers_then_returns_loss {σ : Type}
    (m : GoodWillHunting) (he : m.encoder.wellFormed)
    (hne : m.encoder.convs ≠ []) (hhw : m.decoder.highway = none)
    (hdec : m.decoder.decoder.outF = m.decoder.out_dim)
    (hpos : 0 < m.decoder.out_dim) (training : Bool) (rng : Nat → Bool)
    (off : Nat) (src trg : Tensor2)
    (hsrc : tokensInRange src m.encoder.input_dim = true)
    (hseq : 0 < src.d1)
    (scorer : Tensor2 → Tensor2 → Tensor2 → σ)
    (criterion : MatR → VecN → Except PyError ℝ)
    (hcrit : CriterionContract criterion) :
    (trg.d0 * trg.d1 = src.d0 * src.d1 →
      ∃ t o loss, m.forward training rng off src = .ok (t, o) ∧ 0 ≤ loss ∧
        m.train_epoch training rng off src trg scorer criterion =
          .ok (scorer (argmaxDim2 t) trg src, loss)) ∧
    (trg.d0 * trg.d1 ≠ src.d0 * src.d1 →
      ∃ err, m.train_epoch training rng off src trg scorer criterion =
        .error err) := by
  obtain ⟨t, o, hf, h0, h1, h2⟩ :=
    GoodWillHunting.forward_out_shape m he hne hhw training rng off src
      hsrc hseq
  have hcond : m.decoder.out_dim ≠ 0 ∧
      (t.d0 * t.d1 * t.d2) % m.decoder.out_dim = 0 := by
    refine ⟨by omega, ?_⟩
    rw [h2, hdec]
    exact Nat.mul_mod_left _ _
  have hrows : t.d0 * t.d1 * t.d2 / m.decoder.out_dim = src.d0 * src.d1 := by
    rw [h2, hdec, Nat.mul_div_cancel _ hpos, h0, h1]
  obtain ⟨pred, hv⟩ := view2_ok_of_cond t m.decoder.out_dim hcond
  have hr := view2_ok_rows t m.decoder.out_dim pred hv
  unfold GoodWillHunting.train_epoch
  simp only [hf, hv]
  constructor
  · intro hmatch
    obtain ⟨r, hcr, hr0⟩ := (hcrit pred (view1 trg)).1 (by
      rw [hr, hrows]
      exact hmatch.symm)
    simp only [hcr]
    exact ⟨t, o, r, rfl, hr0, rfl⟩
  · intro hmatch
    obtain ⟨err, hcr⟩ := (hcrit pred (view1 trg)).2 (by
      rw [hr, hrows]
      exact fun hh => hmatch hh.symm)
    simp only [hcr]
    exact ⟨err, rfl⟩

/-- Witness for C5: the model `gwh6` on a `(1, 1)` batch with itself as
target, a recording scorer and the spec-modelled criterion. -/
theorem gwh_train_epoch_registers_then_returns_loss_witness :
    ∃ t o loss, gwh6.forward true rng6 0 src6 = .ok (t, o) ∧ 0 ≤ loss ∧
      gwh6.train_epoch true rng6 0 src6 src6 (fun a b c => (a, b, c))
        specCriterion = .ok (((argmaxDim2 t), src6, src6), loss) :=
  (gwh_train_epoch_registers_then_returns_loss gwh6
    (ConvEmbedding.init_wellFormed 1 "cpu" 1 1 1 1 (1 / 2) init6 enc6 rfl)
    (by simp [gwh6, enc6]) rfl rfl (by decide) true rng6 0 src6 src6
    (by decide) (by decide) (fun a b c => (a, b, c)) specCriterion
    specCriterion_contract).1 rfl

/-- Dropout in eval mode is the identity and draws no randomness. -/
lemma dropout3_eval (p : ℝ) (rng : Nat → Bool) (off : Nat) (t : Tensor3) :
    dropout3 false p rng off t = (t, off) := rfl

/-- A convolution-loop iteration in eval mode is the randomness-free
step (succeeding or raising exactly as the convolution does). -/
lemma convStep_eval (p scale : ℝ) (rng : Nat → Bool) (t : Tensor3)
    (o : Nat) (c : Conv1dLayer) :
    convStep p scale false rng (t, o) c =
      (conv1dApply c t).map
        (fun conved => (scaleT (addT (gluDim1 conved) t) scale, o)) := by
  cases hcv : conv1dApply c t with
  | error e => simp only [convStep, dropout3_eval, hcv, Except.map]
  | ok conved => simp only [convStep, dropout3_eval, hcv, Except.map]

/-- The whole convolution loop in eval mode neither reads nor advances
the Bernoulli stream. -/
lemma convLoop_eval_eq (p scale : ℝ) (rng : Nat → Bool)
    (l : List Conv1dLayer) (t : Tensor3) (o : Nat) :
    convLoop p scale false rng (t, o) l =
      (convLoopEval scale t l).map (fun t2 => (t2, o)) := by
  induction l generalizing t with
  | nil => rfl
  | cons x xs ih =>
    simp only [convLoop, convStep_eval]
    cases hcv : conv1dApply x t with
    | error e => simp [hcv, convLoopEval, Except.map]
    | ok conved =>
      simp only [hcv, Except.map, convLoopEval]
      exact ih _

/-- `ConvEmbedding.forward` in eval mode does not depend on the
Bernoulli stream or its offset. -/
lemma ConvEmbedding.forward_eval (e : ConvEmbedding) (rng1 : Nat → Bool)
    (off1 : Nat) (rng2 : Nat → Bool) (off2 : Nat) (src : Tensor2) :
    (e.forward false rng1 off1 src).map Prod.fst =
    (e.forward false rng2 off2 src).map Prod.fst := by
  unfold ConvEmbedding.forward
  by_cases h : tokensInRange src e.input_dim = true
  · rw [if_pos h, if_pos h]
    simp only [dropout3_eval, convLoop_eval_eq]
    cases hcv : convLoopEval e.scale
        (permute021 (linear3 e.emb2hid (embeddingLookup e.tok_embedding src)))
        e.convs with
    | error err => simp [hcv, Except.map]
    | ok t2 => cases hc : e.convs <;> simp [hcv, hc, Except.map]
  · rw [if_neg h, if_neg h]

/-- C6, amended: `GoodWillHunting.forward` retains no state of its own
between calls, and with dropout inactive (eval mode) it is
deterministic: two calls with the same input and the same parameters
return equal output tensors whatever the carried randomness state; in
training mode (the default module state) the dropout draws do influence
the result, so determinism holds only up to the dropout randomness. -/
theorem gwh_forward_eval_mode_deterministic (m : GoodWillHunting)
    (rng1 : Nat → Bool) (off1 : Nat) (rng2 : Nat → Bool) (off2 : Nat)
    (src : Tensor2) :
    (m.forward false rng1 off1 src).map Prod.fst =
    (m.forward false rng2 off2 src).map Prod.fst := by
  have h := ConvEmbedding.forward_eval m.encoder rng1 off1 rng2 off2 src
  unfold GoodWillHunting.forward
  cases h1 : m.encoder.forward false rng1 off1 src with
  | error e1 =>
    cases h2 : m.encoder.forward false rng2 off2 src with
    | error e2 =>
      rw [h1, h2] at h
      simp [Except.map] at h
      simp [Except.map, h]
    | ok v2 =>
      rw [h1, h2] at h
      simp [Except.map] at h
  | ok v1 =>
    cases h2 : m.encoder.forward false rng2 off2 src with
    | error e2 =>
      rw [h1, h2] at h
      simp [Except.map] at h
    | ok v2 =>
      obtain ⟨t1, o1⟩ := v1
      obtain ⟨t2, o2⟩ := v2
      rw [h1, h2] at h
      simp [Except.map] at h ⊢
      rw [h]

/-- C6, counterexample to the claim as stated: in training mode (the
state a torch module starts in) the randomness state carried between
calls does influence the result.  The constructed model `gwh6`, called
twice on the same input with the same parameters, returns different
outputs: the first call starts at offset 0 of the Bernoulli stream and
hands offset 2 to the second call, whose output differs. -/
theorem gwh_forward_training_depends_on_carried_rng_state :
    GoodWillHunting.init enc6 dec6 "cpu" = .ok gwh6 ∧
    c6off 0 = 2 ∧ c6val 0 ≠ c6val 2 := by
  refine ⟨rfl, rfl, ?_⟩
  have ht : tokensInRange ⟨1, 1, fun _ _ => 0⟩ 1 = true := by decide
  have h0 : c6val 0 = (sigmoid 0 + 2) * Real.sqrt (1 / 2) := by
    simp [c6val, gwh6, enc6, dec6, init6, GoodWillHunting.forward,
      ConvEmbedding.forward, LinearDecoder.forward, LinearDecoder.init,
      ht, embeddingLookup, dropout3, linear3, permute021, convStep, convLoop,
      conv1dApply, gluDim1, addT, scaleT, rng6, src6, Finset.sum_range_one]
    norm_num
  have h2 : c6val 2 = sigmoid 0 * Real.sqrt (1 / 2) := by
    simp [c6val, gwh6, enc6, dec6, init6, GoodWillHunting.forward,
      ConvEmbedding.forward, LinearDecoder.forward, LinearDecoder.init,
      ht, embeddingLookup, dropout3, linear3, permute021, convStep, convLoop,
      conv1dApply, gluDim1, addT, scaleT, rng6, src6, Finset.sum_range_one]
  rw [h0, h2]
  intro heq
  have hs : (0 : ℝ) < Real.sqrt (1 / 2) := Real.sqrt_pos.mpr (by norm_num)
  have hc := mul_right_cancel₀ (ne_of_gt hs) heq
  linarith

end SoDeep
